import Mathlib

/-!
Verification of `google/cloud/security/common/gcp_type/resource_util.py`
(forseti-security): the resource-type registry `_RESOURCE_TYPE_MAP` and its
operations `create_resource`, `pluralize`, `type_from_name`, and the legacy
`load_all` bridge.

Python strings are modelled as Lean `String`; `str.lower()` as a character-wise
`Char.toLower` map (the labels involved are ASCII); `str.startswith` as a
prefix test on the character lists; the Python dict as an association list in
source order
(Python dict iteration order is unspecified, but no registry label is a prefix
of another, so every result proved below is order-independent); `None` results
as `Option.none`; `**kwargs` as an association list of keyword arguments.
-/

/-- Python `**kwargs`: an association list of keyword-argument names to values
(values modelled as strings). -/
abbrev KwArgs := List (String × String)

/- The module `resource` (providing `resource.ResourceType`) is not under src/;
the spec (§3) defines ResourceType as a closed set of enumerated identifiers
used only as map keys and comparison values. They are modelled as distinct
string constants, as in the source repository. -/
namespace ResourceType

/-- Modelled from the spec: `resource.ResourceType.ORGANIZATION`, an enumerated
identifier used as a registry key. -/
def ORGANIZATION : String := "organization"

/-- Modelled from the spec: `resource.ResourceType.FOLDER`. -/
def FOLDER : String := "folder"

/-- Modelled from the spec: `resource.ResourceType.PROJECT`. -/
def PROJECT : String := "project"

/-- Modelled from the spec: `resource.ResourceType.BACKEND_SERVICE`. -/
def BACKEND_SERVICE : String := "backend_service"

end ResourceType

/-- Modelled from the spec: the shared "Resource" capability set (§6): identity
(`resource_id`), type classification (`resource_type`), and the extra keyword
construction parameters the constructor received. The concrete classes are not
under src/. -/
structure Resource where
  resource_id : String
  resource_type : String
  kwargs : KwArgs

/-- Modelled from the spec: constructor of `org.Organization` (not under src/);
per §6 it accepts `(resource_id, **extra)` and yields a value classified as
ORGANIZATION. -/
def Organization (resource_id : String) (kwargs : KwArgs) : Resource :=
  { resource_id := resource_id, resource_type := ResourceType.ORGANIZATION,
    kwargs := kwargs }

/-- Modelled from the spec: constructor of `folder.Folder` (not under src/). -/
def Folder (resource_id : String) (kwargs : KwArgs) : Resource :=
  { resource_id := resource_id, resource_type := ResourceType.FOLDER,
    kwargs := kwargs }

/-- Modelled from the spec: constructor of `project.Project` (not under src/). -/
def Project (resource_id : String) (kwargs : KwArgs) : Resource :=
  { resource_id := resource_id, resource_type := ResourceType.PROJECT,
    kwargs := kwargs }

/-- Modelled from the spec: constructor of `backend_service.BackendService`
(not under src/). -/
def BackendService (resource_id : String) (kwargs : KwArgs) : Resource :=
  { resource_id := resource_id, resource_type := ResourceType.BACKEND_SERVICE,
    kwargs := kwargs }

/-- One value of `_RESOURCE_TYPE_MAP`: the dict keys `class`, `plural` and
`can_create_resource` become fields. -/
structure ResourceTypeMetadata where
  cls : String → KwArgs → Resource
  plural : String
  can_create_resource : Bool

/-- The `class`/`plural`/`can_create_resource` record of the ORGANIZATION entry. -/
def orgMetadata : ResourceTypeMetadata :=
  { cls := Organization, plural := "Organizations", can_create_resource := true }

/-- The record of the FOLDER entry. -/
def folderMetadata : ResourceTypeMetadata :=
  { cls := Folder, plural := "Folders", can_create_resource := true }

/-- The record of the PROJECT entry. -/
def projectMetadata : ResourceTypeMetadata :=
  { cls := Project, plural := "Projects", can_create_resource := true }

/-- The record of the BACKEND_SERVICE entry. -/
def backendServiceMetadata : ResourceTypeMetadata :=
  { cls := BackendService, plural := "Backend Services",
    can_create_resource := false }

/-- `_RESOURCE_TYPE_MAP` from resource_util.py, as an association list in
source order. -/
def _RESOURCE_TYPE_MAP : List (String × ResourceTypeMetadata) :=
  [(ResourceType.ORGANIZATION, orgMetadata),
   (ResourceType.FOLDER, folderMetadata),
   (ResourceType.PROJECT, projectMetadata),
   (ResourceType.BACKEND_SERVICE, backendServiceMetadata)]

/-- Python `s.startswith(pre)`: `pre` is a prefix of `s`, compared on the
character lists, case-sensitively. -/
def startswith (s pre : String) : Bool :=
  pre.data.isPrefixOf s.data

/-- Python `s.lower()`: lowercase each character (the labels involved are
ASCII). -/
def lower (s : String) : String :=
  ⟨s.data.map Char.toLower⟩

/-- `create_resource(resource_id, resource_type, **kwargs)` from
resource_util.py: `None` when the type is not a key of `_RESOURCE_TYPE_MAP`,
`None` when its `can_create_resource` flag is not set, otherwise the entry's
`class` applied to `resource_id` and the forwarded kwargs. -/
def create_resource (resource_id resource_type : String) (kwargs : KwArgs) :
    Option Resource :=
  match _RESOURCE_TYPE_MAP.lookup resource_type with
  | none => none
  | some metadata =>
    if metadata.can_create_resource then
      some (metadata.cls resource_id kwargs)
    else
      none

/-- `pluralize(resource_type)` from resource_util.py: `None` when the type is
not a key of `_RESOURCE_TYPE_MAP`, otherwise the entry's `plural` string. -/
def pluralize (resource_type : String) : Option String :=
  match _RESOURCE_TYPE_MAP.lookup resource_type with
  | none => none
  | some metadata => some metadata.plural

/-- The body of `type_from_name(resource_name)` with the registry it iterates
made explicit: `None` for an absent (`none`) or empty name, otherwise the
`resource_type` of the first entry whose lowercased `plural` label is a prefix
of the name. -/
def type_from_nameIn (m : List (String × ResourceTypeMetadata))
    (resource_name : Option String) : Option String :=
  match resource_name with
  | none => none
  | some name =>
    if name = "" then none
    else (m.find? fun p => startswith name (lower p.2.plural)).map Prod.fst

/-- `type_from_name(resource_name)` from resource_util.py, iterating the module
registry `_RESOURCE_TYPE_MAP`. -/
def type_from_name (resource_name : Option String) : Option String :=
  type_from_nameIn _RESOURCE_TYPE_MAP resource_name

/-- The names bound at module level of resource_util.py: its imports
(`backend_service`, `folder`, `org`, `project`, `resource`, `log_util`) and
its own definitions. `class_loader_util`, referenced by `load_all`, is not
among them: the module never imports it. -/
def moduleLevelNames : List String :=
  ["backend_service", "folder", "org", "project", "resource", "log_util",
   "LOGGER", "_RESOURCE_TYPE_MAP", "create_resource", "pluralize",
   "type_from_name", "load_all"]

/-- Modelled from the spec (§4.4, §6): the instance produced by the external
class-by-name loading facility; `dao` is `some rows` when the instance exposes
a data-access capability whose `get_all()` returns `rows`, `none` when it has
no `dao` attribute. -/
structure LoadedInstance where
  dao : Option (List Resource)

/-- `load_all(resource_class_name)` from resource_util.py. Python resolves the
free name `class_loader_util` in the module globals at call time; it is absent
from `moduleLevelNames`, so the call raises NameError, modelled as
`Except.error`. The `.ok` branch follows the source body over the abstract
`loader`: return the dao's `get_all()` results, or log a warning and return
`None` when the instance has no dao. -/
def load_all (loader : String → LoadedInstance) (resource_class_name : String) :
    Except String (Option (List Resource)) :=
  if moduleLevelNames.contains "class_loader_util" then
    match (loader resource_class_name).dao with
    | some rows => Except.ok (some rows)
    | none => Except.ok none
  else
    Except.error "NameError: name class_loader_util is not defined"

/-- State-passing form of `create_resource`: the registry is module-level state
in Python, so the operation is modelled as also returning the registry it
leaves behind; no statement of the source writes to it. -/
def create_resourceS (st : List (String × ResourceTypeMetadata))
    (resource_id resource_type : String) (kwargs : KwArgs) :
    Option Resource × List (String × ResourceTypeMetadata) :=
  match st.lookup resource_type with
  | none => (none, st)
  | some metadata =>
    if metadata.can_create_resource then
      (some (metadata.cls resource_id kwargs), st)
    else
      (none, st)

/-- State-passing form of `pluralize`. -/
def pluralizeS (st : List (String × ResourceTypeMetadata))
    (resource_type : String) :
    Option String × List (String × ResourceTypeMetadata) :=
  match st.lookup resource_type with
  | none => (none, st)
  | some metadata => (some metadata.plural, st)

/-- State-passing form of `type_from_name`: its loop only reads the registry. -/
def type_from_nameS (st : List (String × ResourceTypeMetadata))
    (resource_name : Option String) :
    Option String × List (String × ResourceTypeMetadata) :=
  (type_from_nameIn st resource_name, st)

/-- C6: pluralize returns the exact configured mixed-case display string for
each registered type. -/
theorem pluralize_fixture_values :
    pluralize ResourceType.ORGANIZATION = some "Organizations" ∧
    pluralize ResourceType.FOLDER = some "Folders" ∧
    pluralize ResourceType.PROJECT = some "Projects" ∧
    pluralize ResourceType.BACKEND_SERVICE = some "Backend Services" :=
  ⟨rfl, rfl, rfl, rfl⟩

/-- C7: an absent or empty resource name yields absence immediately, before and
independently of any iteration of the registry (the first conjunct holds for
every registry). -/
theorem type_from_name_empty_or_absent :
    (∀ m, type_from_nameIn m none = none ∧ type_from_nameIn m (some "") = none) ∧
    type_from_name none = none ∧ type_from_name (some "") = none :=
  ⟨fun _ => ⟨rfl, rfl⟩, rfl, rfl⟩

/-- Two strings of which neither is a prefix of the other cannot both satisfy
`startswith` against the same name: matching in `type_from_name` is unambiguous
for such labels, hence independent of the registry's iteration order. -/
theorem not_both_startswith {n a b : String}
    (hab : (a.data.isPrefixOf b.data || b.data.isPrefixOf a.data) = false)
    (ha : startswith n a = true) : startswith n b = false := by
  by_contra hb
  rw [Bool.not_eq_false] at hb
  unfold startswith at ha hb
  rw [List.isPrefixOf_iff_prefix] at ha hb
  rcases List.prefix_or_prefix_of_prefix ha hb with h | h
  · rw [Bool.or_eq_false_iff] at hab
    exact absurd (List.isPrefixOf_iff_prefix.mpr h) (by simp [hab.1])
  · rw [Bool.or_eq_false_iff] at hab
    exact absurd (List.isPrefixOf_iff_prefix.mpr h) (by simp [hab.2])

/-- `a ++ s` starts with `a`. -/
theorem startswith_append (a s : String) : startswith (a ++ s) a = true := by
  unfold startswith
  rw [String.data_append, List.isPrefixOf_iff_prefix]
  exact List.prefix_append _ _

/-- Appending to a non-empty string keeps it non-empty. -/
theorem string_append_ne_empty {a : String} (s : String) (h : a ≠ "") :
    a ++ s ≠ "" := by
  intro he
  apply h
  apply String.ext
  have h2 : a.data ++ s.data = ([] : List Char) := by
    rw [← String.data_append, he]
  exact (List.append_eq_nil.mp h2).1

/-- A successful association-list lookup exhibits its entry as a member. -/
theorem mem_of_lookup_eq_some {l : List (String × ResourceTypeMetadata)}
    {k : String} {v : ResourceTypeMetadata}
    (h : l.lookup k = some v) : (k, v) ∈ l := by
  obtain ⟨l₁, l₂, rfl, -⟩ := List.lookup_eq_some_iff.mp h
  exact List.mem_append.mpr (Or.inr (List.mem_cons_self _ _))

/-- Characterization of `type_from_name` on non-empty names: it returns exactly
the type of the registry entry whose lowercased plural label is a prefix of the
name (no registry label is a prefix of another, so at most one entry can match
and the result does not depend on the iteration order). -/
theorem type_from_name_eq_some_iff (name : String) (hne : name ≠ "")
    (t : String) :
    type_from_name (some name) = some t ↔
      ∃ metadata, (t, metadata) ∈ _RESOURCE_TYPE_MAP ∧
        startswith name (lower metadata.plural) = true := by
  constructor
  · intro h
    simp only [type_from_name, type_from_nameIn] at h
    rw [if_neg hne] at h
    obtain ⟨⟨t1, md⟩, hfind, hfst⟩ := Option.map_eq_some'.mp h
    subst hfst
    have hp := List.find?_some hfind
    have hm := List.mem_of_find?_eq_some hfind
    exact ⟨md, hm, hp⟩
  · rintro ⟨md, hmem, hpre⟩
    simp only [type_from_name, type_from_nameIn]
    rw [if_neg hne]
    unfold _RESOURCE_TYPE_MAP at hmem ⊢
    simp only [List.mem_cons, List.not_mem_nil, or_false, Prod.mk.injEq] at hmem
    have eO : lower orgMetadata.plural = "organizations" := by decide
    have eF : lower folderMetadata.plural = "folders" := by decide
    have eP : lower projectMetadata.plural = "projects" := by decide
    have eB : lower backendServiceMetadata.plural = "backend services" := by decide
    rcases hmem with ⟨rfl, rfl⟩ | ⟨rfl, rfl⟩ | ⟨rfl, rfl⟩ | ⟨rfl, rfl⟩
    · rw [eO] at hpre
      simp only [List.find?_cons, eO, hpre]
      rfl
    · rw [eF] at hpre
      have h1 : startswith name "organizations" = false :=
        not_both_startswith (b := "organizations") (by decide) hpre
      simp only [List.find?_cons, eO, eF, h1, hpre]
      rfl
    · rw [eP] at hpre
      have h1 : startswith name "organizations" = false :=
        not_both_startswith (b := "organizations") (by decide) hpre
      have h2 : startswith name "folders" = false :=
        not_both_startswith (b := "folders") (by decide) hpre
      simp only [List.find?_cons, eO, eF, eP, h1, h2, hpre]
      rfl
    · rw [eB] at hpre
      have h1 : startswith name "organizations" = false :=
        not_both_startswith (b := "organizations") (by decide) hpre
      have h2 : startswith name "folders" = false :=
        not_both_startswith (b := "folders") (by decide) hpre
      have h3 : startswith name "projects" = false :=
        not_both_startswith (b := "projects") (by decide) hpre
      simp only [List.find?_cons, eO, eF, eP, eB, h1, h2, h3, hpre]
      rfl

/-- Any name built as a registered entry's lowercased plural label followed by
an arbitrary suffix resolves to that entry's type. -/
theorem type_from_name_label_append :
    ∀ p ∈ _RESOURCE_TYPE_MAP, ∀ s,
      type_from_name (some (lower p.2.plural ++ s)) = some p.1 := by
  intro p hp s
  have hlab : lower p.2.plural ≠ "" := by
    unfold _RESOURCE_TYPE_MAP at hp
    simp only [List.mem_cons, List.not_mem_nil, or_false] at hp
    rcases hp with rfl | rfl | rfl | rfl <;> decide
  exact (type_from_name_eq_some_iff _ (string_append_ne_empty s hlab) p.1).mpr
    ⟨p.2, hp, startswith_append _ s⟩

/-- State of the registry is returned unchanged by `create_resourceS`. -/
theorem create_resourceS_state (st : List (String × ResourceTypeMetadata))
    (resource_id resource_type : String) (kwargs : KwArgs) :
    (create_resourceS st resource_id resource_type kwargs).2 = st := by
  unfold create_resourceS
  split
  · rfl
  · split <;> rfl

/-- State of the registry is returned unchanged by `pluralizeS`. -/
theorem pluralizeS_state (st : List (String × ResourceTypeMetadata))
    (resource_type : String) : (pluralizeS st resource_type).2 = st := by
  unfold pluralizeS
  split <;> rfl

/-- C1: for every non-empty name, `type_from_name` returns the type of the
registry entry whose lowercased plural label is a prefix of the name, compared
case-sensitively against the name as given (the characterization is
order-independent since no label is a prefix of another); absence when no entry
matches; and the four documented examples hold. -/
theorem type_from_name_first_matching_entry :
    (∀ name : String, name ≠ "" → ∀ t,
      (type_from_name (some name) = some t ↔
        ∃ metadata, (t, metadata) ∈ _RESOURCE_TYPE_MAP ∧
          startswith name (lower metadata.plural) = true)) ∧
    (∀ name : String,
      (∀ p ∈ _RESOURCE_TYPE_MAP, startswith name (lower p.2.plural) = false) →
        type_from_name (some name) = none) ∧
    type_from_name (some "organizations/123") = some ResourceType.ORGANIZATION ∧
    type_from_name (some "projects/my-proj") = some ResourceType.PROJECT ∧
    type_from_name (some "folders/456") = some ResourceType.FOLDER ∧
    type_from_name (some "unknown/x") = none := by
  refine ⟨type_from_name_eq_some_iff, ?_, by decide, by decide, by decide,
    by decide⟩
  intro name hall
  by_cases hne : name = ""
  · subst hne
    rfl
  · simp only [type_from_name, type_from_nameIn]
    rw [if_neg hne, List.find?_eq_none.mpr fun x hx => by simp [hall x hx]]
    rfl

/-- C1 witness: the characterization applied at the concrete name
"folders/f1". -/
theorem type_from_name_first_matching_entry_witness :
    type_from_name (some "folders/f1") = some ResourceType.FOLDER :=
  (type_from_name_first_matching_entry.1 "folders/f1" (by decide)
      ResourceType.FOLDER).mpr
    ⟨folderMetadata, by simp [_RESOURCE_TYPE_MAP], by decide⟩

/-- C2: for every registered type whose `can_create_resource` flag is false,
`create_resource` returns absence for all arguments, and the result equals the
result for any unregistered type. -/
theorem create_resource_not_creatable_absent :
    (∀ p ∈ _RESOURCE_TYPE_MAP, p.2.can_create_resource = false →
      ∀ resource_id kwargs, create_resource resource_id p.1 kwargs = none) ∧
    (∀ resource_id kwargs resource_type,
      _RESOURCE_TYPE_MAP.lookup resource_type = none →
        create_resource resource_id ResourceType.BACKEND_SERVICE kwargs =
          create_resource resource_id resource_type kwargs) := by
  constructor
  · intro p hp hflag resource_id kwargs
    unfold _RESOURCE_TYPE_MAP at hp
    simp only [List.mem_cons, List.not_mem_nil, or_false, Prod.mk.injEq] at hp
    rcases hp with ⟨rfl, rfl⟩ | ⟨rfl, rfl⟩ | ⟨rfl, rfl⟩ | ⟨rfl, rfl⟩
    · exact absurd hflag (by decide)
    · exact absurd hflag (by decide)
    · exact absurd hflag (by decide)
    · rfl
  · intro resource_id kwargs resource_type h
    unfold create_resource
    rw [h]
    rfl

/-- C2 witness: BACKEND_SERVICE yields absence, equal to the result for the
unregistered type "unknown_type". -/
theorem create_resource_not_creatable_absent_witness :
    create_resource "svc-1" ResourceType.BACKEND_SERVICE [] = none ∧
    create_resource "svc-1" ResourceType.BACKEND_SERVICE [] =
      create_resource "svc-1" "unknown_type" [] :=
  ⟨create_resource_not_creatable_absent.1
      (ResourceType.BACKEND_SERVICE, backendServiceMetadata)
      (by simp [_RESOURCE_TYPE_MAP]) rfl "svc-1" [],
   create_resource_not_creatable_absent.2 "svc-1" [] "unknown_type" rfl⟩

/-- C3: for every registered type whose `can_create_resource` flag is true,
`create_resource` invokes the registered constructor with the given id and the
kwargs forwarded verbatim, and the returned non-absent instance is classified
as the requested type. -/
theorem create_resource_creatable_constructs :
    ∀ p ∈ _RESOURCE_TYPE_MAP, p.2.can_create_resource = true →
      ∀ resource_id kwargs,
        create_resource resource_id p.1 kwargs =
          some (p.2.cls resource_id kwargs) ∧
        (p.2.cls resource_id kwargs).resource_type = p.1 ∧
        (p.2.cls resource_id kwargs).resource_id = resource_id ∧
        (p.2.cls resource_id kwargs).kwargs = kwargs := by
  intro p hp hflag resource_id kwargs
  unfold _RESOURCE_TYPE_MAP at hp
  simp only [List.mem_cons, List.not_mem_nil, or_false, Prod.mk.injEq] at hp
  rcases hp with ⟨rfl, rfl⟩ | ⟨rfl, rfl⟩ | ⟨rfl, rfl⟩ | ⟨rfl, rfl⟩
  · exact ⟨rfl, rfl, rfl, rfl⟩
  · exact ⟨rfl, rfl, rfl, rfl⟩
  · exact ⟨rfl, rfl, rfl, rfl⟩
  · exact absurd hflag (by decide)

/-- C3 witness: PROJECT constructs a Project carrying the id, the PROJECT
classification, and the forwarded kwargs. -/
theorem create_resource_creatable_constructs_witness :
    create_resource "proj-7" ResourceType.PROJECT [("parent", "folders/456")] =
      some (Project "proj-7" [("parent", "folders/456")]) ∧
    (Project "proj-7" [("parent", "folders/456")]).resource_type =
      ResourceType.PROJECT :=
  ⟨(create_resource_creatable_constructs (ResourceType.PROJECT, projectMetadata)
      (by simp [_RESOURCE_TYPE_MAP]) rfl "proj-7" [("parent", "folders/456")]).1,
   (create_resource_creatable_constructs (ResourceType.PROJECT, projectMetadata)
      (by simp [_RESOURCE_TYPE_MAP]) rfl "proj-7"
      [("parent", "folders/456")]).2.1⟩

/-- C4: round-trip: for every registered type, the name built as the lowercased
plural label, a "/", and any id resolves back to that type. -/
theorem pluralize_type_from_name_roundtrip :
    ∀ resource_type plural, pluralize resource_type = some plural →
      ∀ resource_id,
        type_from_name (some (lower plural ++ "/" ++ resource_id)) =
          some resource_type := by
  intro t pl h resource_id
  unfold pluralize at h
  split at h
  · cases h
  · rename_i md hl
    injection h with hpl
    have hmem := mem_of_lookup_eq_some hl
    have happ := type_from_name_label_append (t, md) hmem ("/" ++ resource_id)
    rw [← hpl, String.append_assoc]
    exact happ

/-- C4 witness: the round-trip at PROJECT with id "my-proj". -/
theorem pluralize_type_from_name_roundtrip_witness :
    type_from_name (some (lower "Projects" ++ "/" ++ "my-proj")) =
      some ResourceType.PROJECT :=
  pluralize_type_from_name_roundtrip ResourceType.PROJECT "Projects" rfl
    "my-proj"

/-- C5: for every value that is not a key of the registry, `create_resource`
and `pluralize` both return absence (the functions are total: a miss is a
sentinel result, never a raised fault). -/
theorem unregistered_type_absent :
    ∀ resource_type, resource_type ∉ _RESOURCE_TYPE_MAP.map Prod.fst →
      (∀ resource_id kwargs,
        create_resource resource_id resource_type kwargs = none) ∧
      pluralize resource_type = none := by
  intro t ht
  have hl : _RESOURCE_TYPE_MAP.lookup t = none := by
    rw [List.lookup_eq_none_iff]
    intro p hp
    simp only [bne_iff_ne, ne_eq]
    intro he
    exact ht (by rw [he]; exact List.mem_map_of_mem Prod.fst hp)
  refine ⟨fun resource_id kwargs => ?_, ?_⟩
  · unfold create_resource
    rw [hl]
  · unfold pluralize
    rw [hl]

/-- C5 witness: the malformed type value "bucket!!" is not registered and both
operations return absence on it. -/
theorem unregistered_type_absent_witness :
    create_resource "b-1" "bucket!!" [] = none ∧ pluralize "bucket!!" = none :=
  ⟨(unregistered_type_absent "bucket!!" (by decide)).1 "b-1" [],
   (unregistered_type_absent "bucket!!" (by decide)).2⟩

/-- C8 evidence: every call of `load_all` raises NameError, for every loader
and every class name, because the free name `class_loader_util` is never bound
at module level of resource_util.py. -/
theorem load_all_raises_nameerror :
    ∀ loader resource_class_name,
      load_all loader resource_class_name =
        Except.error "NameError: name class_loader_util is not defined" :=
  fun _ _ => rfl

/-- C9: each of the three operations, in state-passing form, leaves the
registry unchanged, and a second call with identical arguments returns the same
result as the first. -/
theorem operations_idempotent_no_mutation :
    ∀ resource_id resource_type kwargs resource_name,
      ((create_resourceS _RESOURCE_TYPE_MAP resource_id resource_type
          kwargs).2 = _RESOURCE_TYPE_MAP ∧
        (create_resourceS
            (create_resourceS _RESOURCE_TYPE_MAP resource_id resource_type
              kwargs).2 resource_id resource_type kwargs).1 =
          (create_resourceS _RESOURCE_TYPE_MAP resource_id resource_type
            kwargs).1) ∧
      ((pluralizeS _RESOURCE_TYPE_MAP resource_type).2 = _RESOURCE_TYPE_MAP ∧
        (pluralizeS (pluralizeS _RESOURCE_TYPE_MAP resource_type).2
            resource_type).1 =
          (pluralizeS _RESOURCE_TYPE_MAP resource_type).1) ∧
      ((type_from_nameS _RESOURCE_TYPE_MAP resource_name).2 =
          _RESOURCE_TYPE_MAP ∧
        (type_from_nameS (type_from_nameS _RESOURCE_TYPE_MAP resource_name).2
            resource_name).1 =
          (type_from_nameS _RESOURCE_TYPE_MAP resource_name).1) := by
  intro resource_id resource_type kwargs resource_name
  refine ⟨⟨create_resourceS_state _ _ _ _, ?_⟩,
    ⟨pluralizeS_state _ _, ?_⟩, ⟨rfl, rfl⟩⟩
  · rw [create_resourceS_state]
  · rw [pluralizeS_state]

/-- C10: `type_from_name` checks only that the lowercased plural label is a
prefix: for every registered type and every suffix (separator or not), the
label followed by the suffix resolves to a non-absent type; in particular
"organizations" and "organizationsXYZ" both resolve to ORGANIZATION. -/
theorem type_from_name_ignores_separator :
    (∀ resource_type plural, pluralize resource_type = some plural →
      ∀ s, type_from_name (some (lower plural ++ s)) ≠ none) ∧
    type_from_name (some "organizations") = some ResourceType.ORGANIZATION ∧
    type_from_name (some "organizationsXYZ") =
      some ResourceType.ORGANIZATION := by
  refine ⟨?_, by decide, by decide⟩
  intro t pl h s
  unfold pluralize at h
  split at h
  · cases h
  · rename_i md hl
    injection h with hpl
    have hmem := mem_of_lookup_eq_some hl
    have happ := type_from_name_label_append (t, md) hmem s
    rw [← hpl]
    simp only [happ]
    exact Option.some_ne_none t

/-- C10 witness: the FOLDER label with suffix "XYZ" and no separator still
resolves (to a non-absent type). -/
theorem type_from_name_ignores_separator_witness :
    type_from_name (some (lower "Folders" ++ "XYZ")) ≠ none :=
  type_from_name_ignores_separator.1 ResourceType.FOLDER "Folders" rfl "XYZ"
